import Mathlib

/-!
Verification of the regex-driven rewriting engine in
scripts/fix_schema_conversions.py.

The script is a rule-based source-to-source rewriter: an ordered table of
(pattern, replacement-template) rules is applied over a whole text document
by Python's re.sub.  We embed the relevant fragment of Python's regex
semantics (leftmost, non-overlapping matching; greedy quantifiers;
left-biased alternation; MULTILINE end-of-line anchor; numbered capture
groups substituted into templates) as executable Lean functions, translate
each pattern and template of the source verbatim, and prove properties of
the resulting pipeline.

Documents are lists of characters.  A match enumerator returns every way a
regex can consume a prefix of the input, in exactly the priority order of a
backtracking engine (greedy star: longer first; alternation: left first),
so the head of that list is the match Python's engine finds.  A fuel
parameter makes the enumerator structurally recursive; the fuel bound is
generous (each recursive call strips one unit, and the call depth of a
match is linear in the pattern size plus the consumed length).
-/

set_option maxRecDepth 100000

namespace Spell

abbrev Str := List Char

abbrev Caps := List (Nat × Str)

/-- Regular expressions, restricted to the constructs the script uses:
literals, character classes (ranges, possibly negated), concatenation,
alternation, greedy star, numbered capture groups, and the MULTILINE
end-of-line anchor. -/
inductive Rx where
  | lit : Str → Rx
  | cls : List (Char × Char) → Bool → Rx
  | seq : Rx → Rx → Rx
  | alt : Rx → Rx → Rx
  | star : Rx → Rx
  | group : Nat → Rx → Rx
  | eol : Rx

/-- Character-class membership: inside one of the ranges, flipped when the
class is negated.  A negated class also matches a newline, as in Python. -/
def inCls (rs : List (Char × Char)) (neg : Bool) (c : Char) : Bool :=
  let mem := rs.any (fun p => decide (p.1 ≤ c) && decide (c ≤ p.2))
  if neg then !mem else mem

/-- Backtracking matcher in continuation-passing style, exploring
alternatives in exactly the priority order of a Python-style engine and
committing to the first success: greedy star tries a further (non-empty)
body iteration before stopping, alternation tries the left branch first,
and the continuation carries the rest of the pattern, so a failure deeper
in the pattern backtracks into earlier choices.  The continuation receives
the remaining input and the captures; the result is the remaining input
and captures of the first overall success.  Fuel only bounds the recursion
depth. -/
def matchK : Nat → Rx → Str → Caps → (Str → Caps → Option (Str × Caps)) → Option (Str × Caps)
  | 0, _, _, _, _ => none
  | _ + 1, .lit l, s, caps, k => if l.isPrefixOf s then k (s.drop l.length) caps else none
  | _ + 1, .cls rs neg, s, caps, k =>
    match s with
    | [] => none
    | c :: rest => if inCls rs neg c then k rest caps else none
  | f + 1, .seq a b, s, caps, k => matchK f a s caps (fun s1 caps1 => matchK f b s1 caps1 k)
  | f + 1, .alt a b, s, caps, k =>
    match matchK f a s caps k with
    | some r => some r
    | none => matchK f b s caps k
  | f + 1, .star a, s, caps, k =>
    match matchK f a s caps (fun s1 caps1 =>
        if s1.length = s.length then none else matchK f (.star a) s1 caps1 k) with
    | some r => some r
    | none => k s caps
  | f + 1, .group n a, s, caps, k =>
    matchK f a s caps (fun s1 caps1 => k s1 ((n, s.take (s.length - s1.length)) :: caps1))
  | _ + 1, .eol, s, caps, k =>
    match s with
    | [] => k s caps
    | c :: _ => if c = '\n' then k s caps else none

/-- Size of a regex, used only to compute a sufficient fuel bound. -/
def rxSize : Rx → Nat
  | .lit l => l.length + 1
  | .cls _ _ => 1
  | .seq a b => rxSize a + rxSize b + 1
  | .alt a b => rxSize a + rxSize b + 1
  | .star a => rxSize a + 1
  | .group _ a => rxSize a + 1
  | .eol => 1

/-- Fuel that is amply sufficient for any match attempt of this regex on
this input (call depth is linear in pattern size plus consumed length). -/
def matchFuel (re : Rx) (s : Str) : Nat := (s.length + rxSize re + 2) * 8

/-- The match Python's engine finds at the current position, if any, as
(consumed characters, captures): the first success of the backtracking
matcher. -/
def firstMatch (re : Rx) (s : Str) : Option (Str × Caps) :=
  (matchK (matchFuel re s) re s [] (fun rest caps => some (rest, caps))).map
    (fun r => (s.take (s.length - r.1.length), r.2))

/-- Replacement-template token: a literal chunk or a group backreference
(re.sub templates, with escapes such as a backslash-t already expanded,
exactly as re.sub expands them). -/
inductive Tok where
  | l : Str → Tok
  | r : Nat → Tok

/-- Look up a numbered capture (empty if absent; every group of the
script's patterns is bound whenever the whole pattern matches). -/
def getCap (n : Nat) : Caps → Str
  | [] => []
  | (m, v) :: rest => if m = n then v else getCap n rest

/-- Instantiate a replacement template with the captures of one match. -/
def instantiate (t : List Tok) (caps : Caps) : Str :=
  (t.map (fun tok => match tok with | .l s => s | .r n => getCap n caps)).flatten

/-- One re.sub pass, scanning left to right: at each position, commit to
the engine's first match if there is one, emit the instantiated template,
and continue right after the consumed text (non-overlapping); otherwise
copy one character.  Fuel is the document length; every step consumes at
least one character (the script's patterns never match the empty string;
an empty match is copied over defensively). -/
def subScan (re : Rx) (t : List Tok) : Nat → Str → Str
  | 0, s => s
  | _ + 1, [] => []
  | f + 1, c :: rest =>
    match firstMatch re (c :: rest) with
    | none => c :: subScan re t f rest
    | some m =>
      if m.1.isEmpty then c :: subScan re t f rest
      else instantiate t m.2 ++ subScan re t f (List.drop (m.1.length - 1) rest)

/-- re.sub: replace every non-overlapping match, left to right. -/
def subAll (re : Rx) (t : List Tok) (s : Str) : Str := subScan re t s.length s

/-- First index at which the needle occurs as a contiguous substring. -/
def findSub : Str → Str → Option Nat
  | s, sub =>
    match s with
    | [] => if sub.isEmpty then some 0 else none
    | c :: rest => if sub.isPrefixOf (c :: rest) then some 0 else (findSub rest sub).map (· + 1)

/-- Substring occurrence test (Python's `in` on strings). -/
def containsSub (s sub : Str) : Bool := (findSub s sub).isSome

/-- Both occur, and an occurrence of the second starts strictly after the
end of the first occurrence of the first. -/
def containsInOrder (s a b : Str) : Bool :=
  match findSub s a with
  | none => false
  | some i => containsSub (s.drop (i + a.length)) b

/-- Split a document into its lines (text between newline characters). -/
def linesOf : Str → List Str
  | [] => [[]]
  | c :: rest =>
    match linesOf rest with
    | [] => [[c]]
    | l :: ls => if c = '\n' then [] :: l :: ls else (c :: l) :: ls

/-- Backslash-w: one word character. -/
def wChar : Rx := .cls [('a', 'z'), ('A', 'Z'), ('0', '9'), ('_', '_')] false

/-- Backslash-d: one decimal digit. -/
def dChar : Rx := .cls [('0', '9')] false

/-- The class of one letter or underscore. -/
def alphaChar : Rx := .cls [('a', 'z'), ('A', 'Z'), ('_', '_')] false

/-- Concatenation of a list of regexes. -/
def rxCat (l : List Rx) : Rx := l.foldr .seq (.lit [])

/-- One-or-more (greedy). -/
def rxPlus (a : Rx) : Rx := .seq a (.star a)

/-- A literal regex from a string. -/
def rxStr (s : String) : Rx := .lit s.data

/-- The identifier shape of the bare-return rules. -/
def identRx : Rx := .seq alphaChar (.star wChar)

/-! ### The pattern table of fix_string_validations -/

/-- Pattern of the destructuring string-argument rule. -/
def p_str1 : Rx :=
  rxCat [.group 1 (rxPlus wChar), rxStr (", ok := args["), .group 2 (rxPlus dChar),
    rxStr ("].(string)")]

/-- Template of the destructuring string-argument rule (guard, error
return, closing brace, then the unconditional extraction). -/
def t_str1 : List Tok :=
  [.l ("if args[".data), .r 2, .l ("] == nil || args[".data), .r 2,
   .l ("].Type() != engine.TypeString \x7b\n\t\t\treturn nil, fmt.Errorf(\"argument must be string\")\n\t\t\x7d\n\t\t".data),
   .r 1, .l (" := args[".data), .r 2, .l ("].(engine.StringValue).Value()".data)]

/-- Pattern of the direct string type-assertion rule. -/
def p_str2 : Rx := rxCat [rxStr ("args["), .group 1 (rxPlus dChar), rxStr ("].(string)")]

/-- Template of the direct string type-assertion rule. -/
def t_str2 : List Tok := [.l ("args[".data), .r 1, .l ("].(engine.StringValue).Value()".data)]

/-- Pattern of the direct float64 type-assertion rule. -/
def p_str3 : Rx := rxCat [rxStr ("args["), .group 1 (rxPlus dChar), rxStr ("].(float64)")]

/-- Template of the direct float64 type-assertion rule. -/
def t_str3 : List Tok := [.l ("args[".data), .r 1, .l ("].(engine.NumberValue).Value()".data)]

/-- Pattern of the direct bool type-assertion rule. -/
def p_str4 : Rx := rxCat [rxStr ("args["), .group 1 (rxPlus dChar), rxStr ("].(bool)")]

/-- Template of the direct bool type-assertion rule. -/
def t_str4 : List Tok := [.l ("args[".data), .r 1, .l ("].(engine.BoolValue).Value()".data)]

/-! ### The pattern table of fix_return_values (applied with MULTILINE) -/

/-- Bare identifier returned with nil at line end. -/
def p_ret1 : Rx := rxCat [rxStr ("return "), .group 1 identRx, rxStr (", nil"), .eol]

/-- Wrap a bare identifier in the string-value constructor. -/
def t_ret1 : List Tok := [.l ("return engine.NewStringValue(".data), .r 1, .l ("), nil".data)]

/-- Bare integer literal returned with nil at line end. -/
def p_ret2 : Rx := rxCat [rxStr ("return "), .group 1 (rxPlus dChar), rxStr (", nil"), .eol]

/-- Wrap a bare integer literal in the numeric-value constructor. -/
def t_ret2 : List Tok :=
  [.l ("return engine.NewNumberValue(float64(".data), .r 1, .l (")), nil".data)]

/-- Bare boolean literal returned with nil at line end. -/
def p_ret3 : Rx :=
  rxCat [rxStr ("return "), .group 1 (.alt (rxStr ("true")) (rxStr ("false"))),
    rxStr (", nil"), .eol]

/-- Wrap a bare boolean literal in the boolean-value constructor. -/
def t_ret3 : List Tok := [.l ("return engine.NewBoolValue(".data), .r 1, .l ("), nil".data)]

/-- Call to the schema-to-script conversion helper returned with nil. -/
def p_ret4 : Rx :=
  rxCat [rxStr ("return schemaToScript("), .group 1 (rxPlus (.cls [(')', ')')] true)),
    rxStr ("), nil")]

/-- Rename the helper call. -/
def t_ret4 : List Tok :=
  [.l ("return convertSchemaToScriptValue(".data), .r 1, .l ("), nil".data)]

/-- Indexed/sliced expression returned with nil. -/
def p_ret5 : Rx :=
  rxCat [rxStr ("return "), .group 1 identRx, rxStr ("["),
    .group 2 (rxPlus (.cls [(']', ']')] true)), rxStr ("], nil")]

/-- Review-marker comment plus the array-value-wrapped conversion call. -/
def t_ret5 : List Tok :=
  [.l ("// TODO: Convert array/slice return\n\t\treturn engine.NewArrayValue(helpers.ConvertSliceToScriptValue(".data),
   .r 1, .l ("[".data), .r 2, .l ("])), nil".data)]

/-! ### The pattern of fix_object_validations -/

/-- Pattern of the destructuring object-argument rule. -/
def p_obj : Rx :=
  rxCat [.group 1 (rxPlus wChar), rxStr (", ok := args["), .group 2 (rxPlus dChar),
    rxStr ("].(map[string]interface\x7b\x7d)")]

/-- Template of the destructuring object-argument rule: guard, error
return, fresh empty mapping, field-copy loop. -/
def t_obj : List Tok :=
  [.l ("if args[".data), .r 2, .l ("] == nil || args[".data), .r 2,
   .l ("].Type() != engine.TypeObject \x7b\n\t\t\treturn nil, fmt.Errorf(\"argument must be object\")\n\t\t\x7d\n\t\t".data),
   .r 1,
   .l (" := make(map[string]interface\x7b\x7d)\n\t\tfor k, v := range args[".data),
   .r 2,
   .l ("].(engine.ObjectValue).Fields() \x7b\n\t\t\t".data),
   .r 1,
   .l ("[k] = v.ToGo()\n\t\t\x7d".data)]

/-! ### The import-injection rule -/

/-- Pattern matching the opening of an import block together with the run
of following lines that contain no closing parenthesis. -/
def p_imp : Rx :=
  .group 1 (.seq (rxStr ("import (\n"))
    (.star (.seq (.star (.cls [(')', ')')] true)) (rxStr ("\n")))))

/-- Template re-emitting the matched block head and appending the
helper-import line. -/
def t_imp : List Tok :=
  [.r 1, .l ("\t\"github.com/lexlapax/go-llmspell/pkg/bridge/structured/helpers\"\n".data)]

/-! ### The four rewrite functions and the pipeline -/

/-- The ordered rule list of fix_string_validations. -/
def stringRules : List (Rx × List Tok) :=
  [(p_str1, t_str1), (p_str2, t_str2), (p_str3, t_str3), (p_str4, t_str4)]

/-- Fix string argument validations: fold the four rules over the document
in listed order. -/
def fix_string_validations (content : Str) : Str :=
  stringRules.foldl (fun c r => subAll r.1 r.2 c) content

/-- The ordered rule list of fix_return_values. -/
def returnRules : List (Rx × List Tok) :=
  [(p_ret1, t_ret1), (p_ret2, t_ret2), (p_ret3, t_ret3), (p_ret4, t_ret4), (p_ret5, t_ret5)]

/-- Fix return value conversions: fold the five rules over the document in
listed order. -/
def fix_return_values (content : Str) : Str :=
  returnRules.foldl (fun c r => subAll r.1 r.2 c) content

/-- Fix object argument validations: a single rule. -/
def fix_object_validations (content : Str) : Str := subAll p_obj t_obj content

/-- The designated helper module name whose presence anywhere in the
document suppresses import injection. -/
def helpersName : Str := "helpers".data

/-- Add the helper import when the helper name occurs nowhere in the
document. -/
def add_helper_import (content : Str) : Str :=
  if containsSub content helpersName then content
  else subAll p_imp t_imp content

/-- The Rewrite Pipeline: the fixed group order of main — injection of
the import, string-argument validation, object-argument validation,
return-value conversion. -/
def pipeline (content : Str) : Str :=
  fix_return_values (fix_object_validations (fix_string_validations (add_helper_import content)))

/-! ### The persistence collaborator of main, as an event trace -/

/-- A file-system or console event of one invocation of main. -/
inductive Ev where
  | readF : Str → Ev
  | writeF : Str → Str → Ev
  | printF : Str → Ev
deriving DecidableEq

/-- The fixed suffix appended to the original path to form the backup
path. -/
def backupSuffix : Str := ".py_backup".data

/-- The event trace of main on a readable file: read the original, write
the byte-identical backup, print progress, write the transformed result
back to the original path, print the closing messages. -/
def mainTrace (p content : Str) : List Ev :=
  [ .readF p
  , .writeF (p ++ backupSuffix) content
  , .printF ("Processing ".data ++ p ++ "...".data)
  , .writeF p (pipeline content)
  , .printF ("Fixed ".data ++ p ++ " (backup: ".data ++ p ++ backupSuffix ++ ")".data)
  , .printF ("Manual review recommended for complex patterns".data) ]

/-! ### Scenario documents and expected outputs -/

/-- End-to-end scenario document: a bare identifier return. -/
def c1doc : Str := "return count, nil".data

/-- Document with one instance of each bare-return form. -/
def c2doc : Str := "return name, nil\nreturn 42, nil\nreturn true, nil\n".data

/-- What the pipeline actually produces on c2doc. -/
def c2out : Str :=
  "return engine.NewStringValue(name), nil\nreturn engine.NewNumberValue(float64(42)), nil\nreturn engine.NewStringValue(true), nil\n".data

/-- A document with an import block that does not mention the helper
name. -/
def c3doc : Str := "import (\n\t\"fmt\"\n)\n".data

/-- What the pipeline actually produces on c3doc: the helper import is
appended at the end of the block's run of parenthesis-free lines. -/
def c3out : Str :=
  "import (\n\t\"fmt\"\n\t\"github.com/lexlapax/go-llmspell/pkg/bridge/structured/helpers\"\n)\n".data

/-- The output the claim describes: the helper import placed immediately
after the block's opening. -/
def c3claim : Str :=
  "import (\n\t\"github.com/lexlapax/go-llmspell/pkg/bridge/structured/helpers\"\n\t\"fmt\"\n)\n".data

/-- A document without the helper name and without any import block. -/
def c3plain : Str := "package main\n".data

/-- A document mentioning the helper name (in a comment) before an import
block. -/
def c3withHelpers : Str := "// helpers used\nimport (\n\t\"fmt\"\n)\n".data

/-- The decimal digit character of k (for k below ten). -/
def digitChar (k : Nat) : Char := Char.ofNat (48 + k)

/-- The destructuring string-argument idiom at argument index k, as a
document. -/
def c4doc (k : Nat) : Str :=
  "name, ok := args[".data ++ [digitChar k] ++ "].(string)".data

/-- The type-guard head referencing argument k. -/
def c4guard (k : Nat) : Str :=
  "if args[".data ++ [digitChar k] ++ "] == nil || args[".data ++ [digitChar k] ++
    "].Type() != engine.TypeString \x7b".data

/-- The guard's error return with the message "argument must be string". -/
def c4err : Str := "return nil, fmt.Errorf(\"argument must be string\")".data

/-- The unconditional extraction of argument k's string payload. -/
def c4ext (k : Nat) : Str :=
  "name := args[".data ++ [digitChar k] ++ "].(engine.StringValue).Value()".data

/-- The full pipeline output on the string-idiom document. -/
def c4expected (k : Nat) : Str :=
  "if args[".data ++ [digitChar k] ++ "] == nil || args[".data ++ [digitChar k] ++
    "].Type() != engine.TypeString \x7b\n\t\t\treturn nil, fmt.Errorf(\"argument must be string\")\n\t\t\x7d\n\t\tname := args[".data ++
    [digitChar k] ++ "].(engine.StringValue).Value()".data

/-- The destructuring object-argument idiom at argument index k, as a
document. -/
def c5doc (k : Nat) : Str :=
  "obj, ok := args[".data ++ [digitChar k] ++ "].(map[string]interface\x7b\x7d)".data

/-- The object type-guard head referencing argument k. -/
def c5guard (k : Nat) : Str :=
  "if args[".data ++ [digitChar k] ++ "] == nil || args[".data ++ [digitChar k] ++
    "].Type() != engine.TypeObject \x7b".data

/-- The guard's error return with the message "argument must be object". -/
def c5err : Str := "return nil, fmt.Errorf(\"argument must be object\")".data

/-- The fresh empty-mapping construction. -/
def c5fresh : Str := "obj := make(map[string]interface\x7b\x7d)".data

/-- The field-copy loop head referencing argument k. -/
def c5loop (k : Nat) : Str :=
  "for k, v := range args[".data ++ [digitChar k] ++ "].(engine.ObjectValue).Fields() \x7b".data

/-- The loop body converting each field and inserting it under the same
key. -/
def c5copy : Str := "obj[k] = v.ToGo()".data

/-- The full pipeline output on the object-idiom document. -/
def c5expected (k : Nat) : Str :=
  "if args[".data ++ [digitChar k] ++ "] == nil || args[".data ++ [digitChar k] ++
    "].Type() != engine.TypeObject \x7b\n\t\t\treturn nil, fmt.Errorf(\"argument must be object\")\n\t\t\x7d\n\t\tobj := make(map[string]interface\x7b\x7d)\n\t\tfor k, v := range args[".data ++
    [digitChar k] ++
    "].(engine.ObjectValue).Fields() \x7b\n\t\t\tobj[k] = v.ToGo()\n\t\t\x7d".data

/-- End-to-end scenario document: an indexed return. -/
def c8doc : Str := "return result[idx], nil".data

/-- A document whose second (and last) line is exactly the indexed return
line, preceded by a line that opens an index expression. -/
def c8adv : Str := "return a[\nreturn result[idx], nil".data

/-- The review-marker comment. -/
def c8marker : Str := "// TODO: Convert array/slice return".data

/-- What the pipeline actually produces on c8doc. -/
def c8out : Str :=
  "// TODO: Convert array/slice return\n\t\treturn engine.NewArrayValue(helpers.ConvertSliceToScriptValue(result[idx])), nil".data

/-- A document consisting of the keyword-return line. -/
def c10doc : Str := "return nil, nil".data

/-- The keyword-return line embedded between two untouched lines. -/
def c10ctx : Str := "foo()\nreturn nil, nil\nbar()\n".data

/-- No pattern of the pipeline matches anywhere in the document (checked
at every start position). -/
def noMatchAnywhere (re : Rx) (s : Str) : Bool :=
  (List.range (s.length + 1)).all (fun i => (firstMatch re (s.drop i)).isNone)

/-- Every pattern the pipeline ever applies, across its four groups. -/
def pipelinePatterns : List Rx :=
  [p_imp, p_str1, p_str2, p_str3, p_str4, p_obj, p_ret1, p_ret2, p_ret3, p_ret4, p_ret5]

/-- A no-match document for the identity witness. -/
def c6doc : Str := "hello world\n".data

/-! ### Helper lemmas about the substitution executor -/

/-- If no match starts at any position of the document, one re.sub pass
copies the document unchanged, whatever the fuel. -/
theorem subScan_id (re : Rx) (t : List Tok) :
    ∀ s : Str, (∀ i, i ≤ s.length → (firstMatch re (s.drop i)).isNone = true) →
    ∀ f, subScan re t f s = s := by
  intro s
  induction s with
  | nil =>
    intro _ f
    cases f with
    | zero => rfl
    | succ f => rfl
  | cons c rest ih =>
    intro h f
    cases f with
    | zero => rfl
    | succ f =>
      have h0 : firstMatch re (c :: rest) = none := by
        have hh := h 0 (by omega)
        rw [List.drop_zero] at hh
        exact Option.isNone_iff_eq_none.mp hh
      have hrest : ∀ i, i ≤ rest.length → (firstMatch re (rest.drop i)).isNone = true := by
        intro i hi
        have hh := h (i + 1) (by simp only [List.length_cons]; omega)
        rw [List.drop_succ_cons] at hh
        exact hh
      simp only [subScan, h0]
      rw [ih hrest f]

/-- re.sub is the identity on a document in which its pattern never
matches. -/
theorem subAll_id (re : Rx) (t : List Tok) (s : Str)
    (h : noMatchAnywhere re s = true) : subAll re t s = s := by
  refine subScan_id re t s ?_ s.length
  intro i hi
  simp only [noMatchAnywhere, List.all_eq_true] at h
  exact h i (List.mem_range.mpr (by omega))

/-! ### The claims -/

set_option maxHeartbeats 4000000

/-- C1 counterexample: the document consisting of the line
`return count, nil` is rewritten, but its pipeline output nowhere contains
the numeric-value wrapping `return engine.NewNumberValue(float64(count)), nil`
that the claim promises. -/
theorem c1_counterexample :
    (linesOf c1doc).contains ("return count, nil".data) = true ∧
    containsSub (pipeline c1doc)
      ("return engine.NewNumberValue(float64(count)), nil".data) = false := by
  decide

/-- C1 (amended): on the document consisting of the line
`return count, nil`, the pipeline rewrites the line to
`return engine.NewStringValue(count), nil` — the bare-identifier rule runs
first and wraps the identifier in the string-value constructor, so the
numeric-value rule never sees it. -/
theorem c1_theorem :
    pipeline c1doc = "return engine.NewStringValue(count), nil".data := by
  decide

/-- C2 counterexample: on the document holding one bare-identifier, one
bare-integer and one bare-boolean return, the pipeline output contains no
boolean-value constructor at all: the bare-identifier rule, which runs
first, already matched the boolean literal. -/
theorem c2_counterexample :
    (linesOf c2doc).contains ("return true, nil".data) = true ∧
    containsSub (pipeline c2doc) ("engine.NewBoolValue".data) = false := by
  decide

/-- C2 (amended): one application of the pipeline wraps each of the three
bare-return lines exactly once, the identifier in the string-value
constructor and the integer literal in the numeric-value constructor as
claimed, but the boolean literal also in the STRING-value constructor,
because `true`/`false` match the bare-identifier rule which is applied
before the boolean rule. -/
theorem c2_theorem : pipeline c2doc = c2out := by
  decide

/-- C3 counterexample: for an import block holding an existing import, the
helper line is not placed immediately after the block's opening (the
pattern's captured run of parenthesis-free lines ends the block, so the
insertion lands at its end); the claimed output differs from the actual
one.  Moreover a document without any import block but also without the
helper name gains no import line at all. -/
theorem c3_counterexample :
    containsSub c3doc helpersName = false ∧
    pipeline c3doc = c3out ∧
    c3out ≠ c3claim ∧
    containsSub c3plain helpersName = false ∧
    pipeline c3plain = c3plain := by
  decide

/-- C3 (amended): when an import block is present and the helper name
occurs nowhere, exactly one helper import line is inserted at the end of
the block's run of parenthesis-free lines (immediately before the closing
line), not immediately after the opening; a document without an import
block is left unchanged even when the helper name is absent; and when the
helper name already appears anywhere in the text (even in a comment), the
document is left unchanged. -/
theorem c3_theorem :
    pipeline c3doc = c3out ∧
    pipeline c3plain = c3plain ∧
    pipeline c3withHelpers = c3withHelpers := by
  decide

/-- C7: applying the pipeline a second time to the output of the first
application on the document with one instance of each bare-return form
leaves every constructor-wrapped return line unchanged: the once-rewritten
document is a fixed point. -/
theorem c7_theorem : pipeline (pipeline c2doc) = pipeline c2doc := by
  decide

/-- C8 counterexample: a document whose last line is exactly
`return result[idx], nil`, preceded by the line `return a[`.  The greedy
indexed-return pattern matches across the newline (its bracket capture
admits newlines), swallowing the line into the capture of an enclosing
match, so the output contains no conversion-helper call over the indexed
sub-expression `result[idx]`. -/
theorem c8_counterexample :
    (linesOf c8adv).contains ("return result[idx], nil".data) = true ∧
    containsSub (pipeline c8adv)
      ("ConvertSliceToScriptValue(result[idx])".data) = false := by
  decide

/-- C8 (amended): on the document consisting of the line
`return result[idx], nil`, the pipeline output is the review-marker
comment line followed by the return rewritten into the array-value
constructor wrapping the conversion-helper call over `result[idx]`, the
marker textually preceding the rewritten return. -/
theorem c8_theorem :
    pipeline c8doc = c8out ∧
    containsInOrder c8out c8marker
      ("return engine.NewArrayValue(helpers.ConvertSliceToScriptValue(result[idx])), nil".data)
      = true := by
  decide

/-- C10: a document containing the line `return nil, nil` has it rewritten
to `return engine.NewStringValue(nil), nil`: the bare-identifier pattern
matches any identifier-shaped token including the keyword `nil` and wraps
it in the string-value constructor (single-line scenario and the line
embedded between untouched lines). -/
theorem c10_theorem :
    pipeline c10doc = "return engine.NewStringValue(nil), nil".data ∧
    pipeline c10ctx = "foo()\nreturn engine.NewStringValue(nil), nil\nbar()\n".data := by
  decide

/-- C4: for each argument index k, the pipeline output on the
destructuring string-argument idiom contains the type-guard referencing
args[k], the guard's error return with message "argument must be string",
and the unconditional extraction of argument k's string payload, the guard
and its error return both textually preceding the extraction. -/
theorem c4_theorem :
    ∀ k, k < 10 →
    pipeline (c4doc k) = c4expected k ∧
    containsSub (c4expected k) (c4guard k) = true ∧
    containsInOrder (c4expected k) (c4guard k) (c4ext k) = true ∧
    containsInOrder (c4expected k) (c4err) (c4ext k) = true := by
  decide

/-- C4 witness: the theorem instantiated at argument index zero. -/
theorem c4_witness :
    pipeline (c4doc 0) = c4expected 0 ∧
    containsSub (c4expected 0) (c4guard 0) = true ∧
    containsInOrder (c4expected 0) (c4guard 0) (c4ext 0) = true ∧
    containsInOrder (c4expected 0) (c4err) (c4ext 0) = true :=
  c4_theorem 0 (by decide)

/-- C5: for each argument index k, the pipeline output on the
destructuring object-argument idiom contains the type-guard referencing
args[k] with the error message "argument must be object", the fresh
empty-mapping construction, and the field-copy loop referencing args[k]
that converts each field value and inserts it under the same key, in
that textual order. -/
theorem c5_theorem :
    ∀ k, k < 10 →
    pipeline (c5doc k) = c5expected k ∧
    containsSub (c5expected k) (c5guard k) = true ∧
    containsInOrder (c5expected k) (c5guard k) (c5err) = true ∧
    containsInOrder (c5expected k) (c5err) (c5fresh) = true ∧
    containsInOrder (c5expected k) (c5fresh) (c5loop k) = true ∧
    containsInOrder (c5expected k) (c5loop k) (c5copy) = true := by
  decide

/-- C5 witness: the theorem instantiated at argument index zero. -/
theorem c5_witness :
    pipeline (c5doc 0) = c5expected 0 ∧
    containsSub (c5expected 0) (c5guard 0) = true ∧
    containsInOrder (c5expected 0) (c5guard 0) (c5err) = true ∧
    containsInOrder (c5expected 0) (c5err) (c5fresh) = true ∧
    containsInOrder (c5expected 0) (c5fresh) (c5loop 0) = true ∧
    containsInOrder (c5expected 0) (c5loop 0) (c5copy) = true :=
  c5_theorem 0 (by decide)

/-- C6: for every document in which none of the pipeline's eleven patterns
matches at any position, the pipeline output equals the input unchanged;
each rule application is a total function and a non-matching pattern is a
no-op, never an error. -/
theorem c6_theorem (doc : Str)
    (h : pipelinePatterns.all (fun p => noMatchAnywhere p doc) = true) :
    pipeline doc = doc := by
  simp only [pipelinePatterns, List.all_cons, List.all_nil, Bool.and_eq_true, and_true] at h
  obtain ⟨himp, hs1, hs2, hs3, hs4, hobj, hr1, hr2, hr3, hr4, hr5⟩ := h
  have e0 : add_helper_import doc = doc := by
    by_cases hc : containsSub doc helpersName = true
    · simp [add_helper_import, hc]
    · simp [add_helper_import, hc, subAll_id _ _ _ himp]
  have e1 : fix_string_validations doc = doc := by
    simp only [fix_string_validations, stringRules, List.foldl_cons, List.foldl_nil]
    rw [subAll_id _ _ _ hs1, subAll_id _ _ _ hs2, subAll_id _ _ _ hs3, subAll_id _ _ _ hs4]
  have e2 : fix_object_validations doc = doc := subAll_id _ _ _ hobj
  have e3 : fix_return_values doc = doc := by
    simp only [fix_return_values, returnRules, List.foldl_cons, List.foldl_nil]
    rw [subAll_id _ _ _ hr1, subAll_id _ _ _ hr2, subAll_id _ _ _ hr3, subAll_id _ _ _ hr4,
      subAll_id _ _ _ hr5]
  simp only [pipeline]
  rw [e0, e1, e2, e3]

/-- C6 witness: a concrete document with no pattern occurrence passes
through the pipeline unchanged. -/
theorem c6_witness :
    pipelinePatterns.all (fun p => noMatchAnywhere p c6doc) = true ∧
    pipeline c6doc = c6doc :=
  ⟨by decide, c6_theorem c6doc (by decide)⟩

/-- C9: on every invocation (any path, any readable content), the trace of
main writes the byte-identical backup of the pre-transform input to the
sibling path (original path plus the fixed backup suffix) at step one, and
every write to the original path occurs strictly later and carries the
transformed result — so the source path is never overwritten before the
backup exists. -/
theorem c9_theorem (p content : Str) :
    (mainTrace p content)[1]? = some (.writeF (p ++ backupSuffix) content) ∧
    (∀ i q d, (mainTrace p content)[i]? = some (.writeF q d) → q = p →
      1 < i ∧ d = pipeline content) := by
  constructor
  · rfl
  · intro i q d hi hq
    subst hq
    match i with
    | 0 => simp [mainTrace] at hi
    | 1 =>
      simp only [mainTrace, List.getElem?_cons_succ, List.getElem?_cons_zero,
        Option.some.injEq] at hi
      have hlen := congrArg List.length (Ev.writeF.inj hi).1
      rw [List.length_append] at hlen
      have hb : backupSuffix.length = 10 := rfl
      rw [hb] at hlen
      omega
    | 2 => simp [mainTrace] at hi
    | 3 =>
      simp only [mainTrace, List.getElem?_cons_succ, List.getElem?_cons_zero,
        Option.some.injEq] at hi
      exact ⟨by omega, ((Ev.writeF.inj hi).2).symm⟩
    | 4 => simp [mainTrace] at hi
    | 5 => simp [mainTrace] at hi
    | n + 6 => simp [mainTrace] at hi

/-- C9 witness: the theorem instantiated at a concrete path and content. -/
theorem c9_witness :
    (mainTrace ("schema.go".data) ("return count, nil".data))[1]? =
      some (.writeF ("schema.go".data ++ backupSuffix) ("return count, nil".data)) ∧
    (∀ i q d,
      (mainTrace ("schema.go".data) ("return count, nil".data))[i]? = some (.writeF q d) →
      q = "schema.go".data →
      1 < i ∧ d = pipeline ("return count, nil".data)) :=
  c9_theorem ("schema.go".data) ("return count, nil".data)

end Spell
